import Mathlib

/-!
Verification development for the EMI loan-calculation engine
(`src/utils/finance.ts`): `calculateEMI` and `generateSchedule`.

Numbers are embedded as rationals (`ℚ`), the idealized real semantics of the
JavaScript float arithmetic; note that in `ℚ` division by zero yields `0`
where JavaScript would produce `NaN` — the one divergence point, which is
called out where it matters (the zero-rate case).

`generateSchedule` in the source reads the current date via `new Date()`;
that ambient clock reading is passed here as the explicit `startYear` /
`startMonth` arguments (explicit state passing for the impure read).
JavaScript `new Date(y, m)` with `m ≥ 0` normalizes to calendar year
`y + m / 12` and month index `m % 12`.
-/

/-- Mirror of the `ScheduleEntry` interface in `src/types`. -/
structure ScheduleEntry where
  month : ℕ
  year : ℕ
  emi : ℚ
  principal : ℚ
  interest : ℚ
  balance : ℚ
deriving DecidableEq, Repr

/-- Mirror of the `LoanSummary` interface in `src/types`. -/
structure LoanSummary where
  monthlyEmi : ℚ
  totalInterest : ℚ
  totalPayable : ℚ
  principalAmount : ℚ
  tenureMonths : ℕ
deriving DecidableEq, Repr

/-- Embedding of `calculateEMI` from `src/utils/finance.ts`. -/
def calculateEMI (principal annualRate : ℚ) (tenureYears : ℕ) : LoanSummary :=
  let monthlyRate := annualRate / 12 / 100
  let tenureMonths := tenureYears * 12
  let emi :=
    (principal * monthlyRate * (1 + monthlyRate) ^ tenureMonths) /
      ((1 + monthlyRate) ^ tenureMonths - 1)
  let totalPayable := emi * tenureMonths
  let totalInterest := totalPayable - principal
  { monthlyEmi := emi
    totalInterest := totalInterest
    totalPayable := totalPayable
    principalAmount := principal
    tenureMonths := tenureMonths }

/-- The body of the `for` loop of `generateSchedule`: `n` is the number of
periods still to emit, `balance` the running balance, `i` the 1-based period
index. Each iteration computes `interest`, `principalPaid`, the clamped new
balance, and the calendar label `new Date(startYear, startMonth + i)`. -/
def scheduleAux (monthlyRate emi : ℚ) (startYear startMonth : ℕ) :
    ℕ → ℚ → ℕ → List ScheduleEntry
  | 0, _, _ => []
  | n + 1, balance, i =>
    let interest := balance * monthlyRate
    let principalPaid := emi - interest
    let newBalance := max 0 (balance - principalPaid)
    { month := (startMonth + i) % 12 + 1
      year := startYear + (startMonth + i) / 12
      emi := emi
      principal := principalPaid
      interest := interest
      balance := newBalance } ::
      scheduleAux monthlyRate emi startYear startMonth n newBalance (i + 1)

/-- Embedding of `generateSchedule` from `src/utils/finance.ts`; the
`startYear`/`startMonth` arguments stand for the `new Date()` clock reads. -/
def generateSchedule (principal annualRate : ℚ) (tenureYears : ℕ) (emi : ℚ)
    (startYear startMonth : ℕ) : List ScheduleEntry :=
  scheduleAux (annualRate / 12 / 100) emi startYear startMonth
    (tenureYears * 12) principal 1

/-- The balance after `k` iterations of the loop, starting from `b`. -/
def balIter (monthlyRate emi b : ℚ) : ℕ → ℚ
  | 0 => b
  | k + 1 =>
    max 0 (balIter monthlyRate emi b k -
      (emi - balIter monthlyRate emi b k * monthlyRate))

lemma balIter_zero (mr emi b : ℚ) : balIter mr emi b 0 = b := rfl

lemma balIter_succ (mr emi b : ℚ) (k : ℕ) :
    balIter mr emi b (k + 1) =
      max 0 (balIter mr emi b k - (emi - balIter mr emi b k * mr)) := rfl

/-- Restarting the iteration from the once-stepped balance shifts the index. -/
lemma balIter_step (mr emi b : ℚ) (k : ℕ) :
    balIter mr emi (max 0 (b - (emi - b * mr))) k = balIter mr emi b (k + 1) := by
  induction k with
  | zero => rfl
  | succ k ih => simp only [balIter_succ, ih]

lemma scheduleAux_length (mr emi : ℚ) (sy sm : ℕ) :
    ∀ (n : ℕ) (b : ℚ) (i : ℕ), (scheduleAux mr emi sy sm n b i).length = n := by
  intro n
  induction n with
  | zero => intro b i; rfl
  | succ n ih => intro b i; simp [scheduleAux, ih]

/-- Characterization of the `k`-th (0-based) emitted entry of the loop. -/
lemma scheduleAux_get? (mr emi : ℚ) (sy sm : ℕ) :
    ∀ (n k : ℕ) (b : ℚ) (i : ℕ), k < n →
      (scheduleAux mr emi sy sm n b i).get? k =
        some { month := (sm + (i + k)) % 12 + 1
               year := sy + (sm + (i + k)) / 12
               emi := emi
               principal := emi - balIter mr emi b k * mr
               interest := balIter mr emi b k * mr
               balance := balIter mr emi b (k + 1) } := by
  intro n
  induction n with
  | zero => intro k b i hk; omega
  | succ n ih =>
    intro k b i hk
    match k with
    | 0 =>
      simp [scheduleAux, balIter_zero, balIter_succ]
    | k + 1 =>
      have hk' : k < n := by omega
      have step := ih k (max 0 (b - (emi - b * mr))) (i + 1) hk'
      simp only [scheduleAux, List.get?_cons_succ]
      rw [step, balIter_step, balIter_step]
      have harith : i + 1 + k = i + (k + 1) := by omega
      rw [harith]

lemma generateSchedule_length (p r : ℚ) (t : ℕ) (emi : ℚ) (sy sm : ℕ) :
    (generateSchedule p r t emi sy sm).length = t * 12 :=
  scheduleAux_length _ _ _ _ _ _ _

/-- Entry `k` (0-based) of the full schedule, in terms of `balIter`. -/
lemma generateSchedule_get? (p r : ℚ) (t : ℕ) (emi : ℚ) (sy sm : ℕ)
    (k : ℕ) (hk : k < t * 12) :
    (generateSchedule p r t emi sy sm).get? k =
      some { month := (sm + (k + 1)) % 12 + 1
             year := sy + (sm + (k + 1)) / 12
             emi := emi
             principal := emi - balIter (r / 12 / 100) emi p k * (r / 12 / 100)
             interest := balIter (r / 12 / 100) emi p k * (r / 12 / 100)
             balance := balIter (r / 12 / 100) emi p (k + 1) } := by
  have h := scheduleAux_get? (r / 12 / 100) emi sy sm (t * 12) k p 1 hk
  have harith : 1 + k = k + 1 := by omega
  rw [harith] at h
  exact h

lemma generateSchedule_get?_isSome (p r : ℚ) (t : ℕ) (emi : ℚ) (sy sm : ℕ)
    (k : ℕ) (e : ScheduleEntry)
    (h : (generateSchedule p r t emi sy sm).get? k = some e) : k < t * 12 := by
  have := List.get?_eq_some.mp h
  obtain ⟨hlt, -⟩ := this
  rwa [generateSchedule_length] at hlt

/-! ### Closed form of the running balance under the formula payment

With a positive monthly rate `mr`, write `q := 1 + mr` and let the payment be
the amortization-formula value `E = p * mr * q^N / (q^N - 1)`. Then the
unclamped recurrence has the closed form
`balance after k periods = p * (q^N - q^k) / (q^N - 1)`, which is nonnegative
for `k ≤ N`, so the clamp never engages before period `N`, and the balance
after period `N` is exactly `0`. -/

lemma balIter_closed (p mr : ℚ) (N : ℕ) (hp : 0 ≤ p) (hmr : 0 < mr)
    (hN : 1 ≤ N) :
    ∀ k, k ≤ N →
      balIter mr (p * mr * (1 + mr) ^ N / ((1 + mr) ^ N - 1)) p k =
        p * ((1 + mr) ^ N - (1 + mr) ^ k) / ((1 + mr) ^ N - 1) := by
  have hq : (1 : ℚ) < 1 + mr := by linarith
  have hqN : (1 : ℚ) < (1 + mr) ^ N := one_lt_pow₀ hq (by omega)
  have hden : (0 : ℚ) < (1 + mr) ^ N - 1 := by linarith
  intro k
  induction k with
  | zero =>
    intro _
    rw [balIter_zero, pow_zero]
    field_simp
  | succ k ih =>
    intro hk1
    have hk : k ≤ N := by omega
    have ihk := ih hk
    have hqle : (1 + mr) ^ (k + 1) ≤ (1 + mr) ^ N :=
      pow_le_pow_right₀ (le_of_lt hq) hk1
    have hx : (0 : ℚ) ≤ p * ((1 + mr) ^ N - (1 + mr) ^ (k + 1)) /
        ((1 + mr) ^ N - 1) := by
      apply div_nonneg
      · exact mul_nonneg hp (by linarith)
      · linarith
    have key : p * ((1 + mr) ^ N - (1 + mr) ^ k) / ((1 + mr) ^ N - 1) -
        (p * mr * (1 + mr) ^ N / ((1 + mr) ^ N - 1) -
          p * ((1 + mr) ^ N - (1 + mr) ^ k) / ((1 + mr) ^ N - 1) * mr) =
        p * ((1 + mr) ^ N - (1 + mr) ^ (k + 1)) / ((1 + mr) ^ N - 1) := by
      field_simp
      ring
    rw [balIter_succ, ihk, key, max_eq_right hx]

/-- After all `N` periods the closed form vanishes: the loan is retired. -/
lemma balIter_final (p mr : ℚ) (N : ℕ) (hp : 0 ≤ p) (hmr : 0 < mr)
    (hN : 1 ≤ N) :
    balIter mr (p * mr * (1 + mr) ^ N / ((1 + mr) ^ N - 1)) p N = 0 := by
  rw [balIter_closed p mr N hp hmr hN N le_rfl]
  simp

/-- Under the formula payment the running balance is non-increasing. -/
lemma balIter_mono (p mr : ℚ) (N : ℕ) (hp : 0 ≤ p) (hmr : 0 < mr)
    (hN : 1 ≤ N) (j k : ℕ) (hjk : j ≤ k) (hk : k ≤ N) :
    balIter mr (p * mr * (1 + mr) ^ N / ((1 + mr) ^ N - 1)) p k ≤
      balIter mr (p * mr * (1 + mr) ^ N / ((1 + mr) ^ N - 1)) p j := by
  have hq : (1 : ℚ) < 1 + mr := by linarith
  have hqN : (1 : ℚ) < (1 + mr) ^ N := one_lt_pow₀ hq (by omega)
  have hden : (0 : ℚ) < (1 + mr) ^ N - 1 := by linarith
  rw [balIter_closed p mr N hp hmr hN k hk,
    balIter_closed p mr N hp hmr hN j (le_trans hjk hk)]
  have hpow : (1 + mr) ^ j ≤ (1 + mr) ^ k :=
    pow_le_pow_right₀ (le_of_lt hq) hjk
  exact (div_le_div_right hden).mpr (mul_le_mul_of_nonneg_left (by linarith) hp)

/-- The interest column of the loop output, as a `Finset` sum of `balIter`. -/
lemma scheduleAux_interest_sum (mr emi : ℚ) (sy sm : ℕ) :
    ∀ (n : ℕ) (b : ℚ) (i : ℕ),
      ((scheduleAux mr emi sy sm n b i).map ScheduleEntry.interest).sum =
        ∑ k ∈ Finset.range n, balIter mr emi b k * mr := by
  intro n
  induction n with
  | zero => intro b i; simp [scheduleAux]
  | succ n ih =>
    intro b i
    have hstep : ∀ k, balIter mr emi (max 0 (b - (emi - b * mr))) k =
        balIter mr emi b (k + 1) := fun k => balIter_step mr emi b k
    simp only [scheduleAux, List.map_cons, List.sum_cons]
    rw [ih (max 0 (b - (emi - b * mr))) (i + 1)]
    rw [Finset.sum_congr rfl (fun k _ => by rw [hstep k]),
      Finset.sum_range_succ']
    rw [balIter_zero]
    ring

/-- Telescoped partial sums of interest under the formula payment. -/
lemma interest_sum_closed (p mr : ℚ) (N : ℕ) (hp : 0 ≤ p) (hmr : 0 < mr)
    (hN : 1 ≤ N) :
    ∀ j, j ≤ N →
      ∑ k ∈ Finset.range j,
          balIter mr (p * mr * (1 + mr) ^ N / ((1 + mr) ^ N - 1)) p k * mr =
        j * (p * mr * (1 + mr) ^ N / ((1 + mr) ^ N - 1)) - p +
          balIter mr (p * mr * (1 + mr) ^ N / ((1 + mr) ^ N - 1)) p j := by
  have hq : (1 : ℚ) < 1 + mr := by linarith
  have hqN : (1 : ℚ) < (1 + mr) ^ N := one_lt_pow₀ hq (by omega)
  have hden : (0 : ℚ) < (1 + mr) ^ N - 1 := by linarith
  intro j
  induction j with
  | zero => simp [balIter_zero]
  | succ j ih =>
    intro hj1
    have hj : j ≤ N := by omega
    rw [Finset.sum_range_succ, ih hj,
      balIter_closed p mr N hp hmr hN j hj,
      balIter_closed p mr N hp hmr hN (j + 1) hj1]
    push_cast
    field_simp
    ring

/-! ### Error-channel view of the engine -/

/-- Error taxonomy of §7 of the specification. -/
inductive EmiError where
  | invalidInput
deriving DecidableEq, Repr

/-- `calculateEMI` as a fallible computation. The source function body has no
`throw` and no validation branch, so it always succeeds. -/
def calculateEMIChecked (p r : ℚ) (t : ℕ) : Except EmiError LoanSummary :=
  Except.ok (calculateEMI p r t)

/-- Modelled from the spec: the engine "fails with an invalid-input error when
principal ≤ 0, tenureYears ≤ 0, or rate < 0" and otherwise computes the
summary. This is the specified behavior, for comparison with the source. -/
def calculateEMISpec (p r : ℚ) (t : ℕ) : Except EmiError LoanSummary :=
  if p ≤ 0 ∨ t = 0 ∨ r < 0 then Except.error EmiError.invalidInput
  else Except.ok (calculateEMI p r t)

/-! ### The claims -/

/-- C1: for positive principal and tenure, a zero annual rate should yield
`payment = principal / periodCount` (e.g. 100000 over 10 years → 833.33…,
zero total interest). The source has no zero-rate branch: at rate 0 the
formula's denominator `(1+r)^N - 1` is exactly `0`, so JavaScript evaluates
`0/0 = NaN` (in this `ℚ` embedding the division by the zero denominator
yields `0`), and the totals are nonsense (`totalInterest = -principal`)
rather than the limiting values the claim requires. -/
theorem calculateEMI_zero_rate_numeric_fault :
    (1 + (0 : ℚ) / 12 / 100) ^ (10 * 12) - 1 = 0 ∧
    (calculateEMI 100000 0 10).monthlyEmi = 0 ∧
    (calculateEMI 100000 0 10).monthlyEmi ≠ 100000 / 120 ∧
    (calculateEMI 100000 0 10).totalInterest = -100000 ∧
    (calculateEMI 100000 0 10).totalInterest ≠ 0 := by
  norm_num [calculateEMI]

/-- C2 counterexample: at the invalid input `principal = -100`, rate 12,
tenure 1, the specified engine rejects with `invalidInput`, but the source
engine returns a `LoanSummary` (it has no validation), and the schedule
generator likewise emits a full 12-entry schedule instead of rejecting. -/
theorem calculateEMI_no_validation_counterexample :
    calculateEMISpec (-100) 12 1 = Except.error EmiError.invalidInput ∧
    calculateEMIChecked (-100) 12 1 = Except.ok (calculateEMI (-100) 12 1) ∧
    calculateEMIChecked (-100) 12 1 ≠ calculateEMISpec (-100) 12 1 ∧
    (generateSchedule (-100) 12 1 5 2024 0).length = 12 := by
  refine ⟨?_, rfl, ?_, ?_⟩
  · rw [calculateEMISpec, if_pos]
    norm_num
  · rw [calculateEMIChecked, calculateEMISpec, if_pos]
    · intro h
      exact Except.noConfusion h
    · norm_num
  · rw [generateSchedule_length]

/-- C2 amended: the engine performs no input validation at all — for
principal ≤ 0, zero tenure, or negative rate it still returns a
`LoanSummary` (never an error), and `generateSchedule` still returns a
full-length schedule; rejection of invalid inputs is left to the caller. -/
theorem engine_total_on_invalid_inputs (p r : ℚ) (t : ℕ) (payment : ℚ)
    (sy sm : ℕ) (h : p ≤ 0 ∨ t = 0 ∨ r < 0) :
    calculateEMIChecked p r t = Except.ok (calculateEMI p r t) ∧
    (generateSchedule p r t payment sy sm).length = t * 12 :=
  ⟨rfl, generateSchedule_length p r t payment sy sm⟩

/-- Witness for the amended C2 at the concrete invalid input of the
counterexample. -/
theorem engine_total_on_invalid_inputs_witness :
    ((-100 : ℚ) ≤ 0 ∨ (1 : ℕ) = 0 ∨ (12 : ℚ) < 0) ∧
    (calculateEMIChecked (-100) 12 1 = Except.ok (calculateEMI (-100) 12 1) ∧
      (generateSchedule (-100) 12 1 5 2024 0).length = 1 * 12) :=
  ⟨Or.inl (by norm_num),
    engine_total_on_invalid_inputs (-100) 12 1 5 2024 0 (Or.inl (by norm_num))⟩

/-- C3: for every entry of the schedule, `principal + interest = payment`
exactly; the first entry's interest is `principal * (rate/12/100)` and its
balance is the clamped `principal - principalPortion`; every later entry's
interest is the previous entry's balance times the monthly rate, and its
balance is the previous balance minus its principal portion, clamped at 0. -/
theorem generateSchedule_entry_invariants (p r : ℚ) (t : ℕ) (payment : ℚ)
    (sy sm : ℕ) (hp : 0 < p) (hr : 0 ≤ r) (ht : 1 ≤ t) :
    ∀ k e, (generateSchedule p r t payment sy sm).get? k = some e →
      e.principal + e.interest = payment ∧
      (k = 0 → e.interest = p * (r / 12 / 100) ∧
        e.balance = max 0 (p - e.principal)) ∧
      (∀ j e2, k = j + 1 →
        (generateSchedule p r t payment sy sm).get? j = some e2 →
        e.interest = e2.balance * (r / 12 / 100) ∧
        e.balance = max 0 (e2.balance - e.principal)) := by
  intro k e he
  have hk := generateSchedule_get?_isSome p r t payment sy sm k e he
  rw [generateSchedule_get? p r t payment sy sm k hk] at he
  injection he with he
  subst he
  refine ⟨by ring, ?_, ?_⟩
  · intro hk0
    subst hk0
    refine ⟨by rw [balIter_zero], ?_⟩
    show balIter (r / 12 / 100) payment p (0 + 1) = _
    rw [balIter_succ, balIter_zero]
  · intro j e2 hkj he2
    subst hkj
    have hj : j < t * 12 := by omega
    rw [generateSchedule_get? p r t payment sy sm j hj] at he2
    injection he2 with he2
    subst he2
    constructor
    · rfl
    · show balIter (r / 12 / 100) payment p (j + 1 + 1) = _
      rw [balIter_succ]

/-- Witness for C3 at principal 100, rate 12, tenure 1, payment 5. -/
theorem generateSchedule_entry_invariants_witness :
    (0 : ℚ) < 100 ∧ (0 : ℚ) ≤ 12 ∧ (1 : ℕ) ≤ 1 ∧
    (∀ k e, (generateSchedule 100 12 1 5 2024 0).get? k = some e →
      e.principal + e.interest = 5 ∧
      (k = 0 → e.interest = 100 * (12 / 12 / 100) ∧
        e.balance = max 0 (100 - e.principal)) ∧
      (∀ j e2, k = j + 1 →
        (generateSchedule 100 12 1 5 2024 0).get? j = some e2 →
        e.interest = e2.balance * (12 / 12 / 100) ∧
        e.balance = max 0 (e2.balance - e.principal))) :=
  ⟨by norm_num, by norm_num, le_rfl,
    generateSchedule_entry_invariants 100 12 1 5 2024 0 (by norm_num)
      (by norm_num) le_rfl⟩

/-- C4: the summary satisfies `totalPayable = monthlyEmi * periodCount`
exactly by construction, `totalPayable = totalInterest + principalAmount`
exactly (hence within any floating-point tolerance), `tenureMonths` is
`tenureYears * 12`, and `principalAmount` echoes the input. -/
theorem calculateEMI_totals (p r : ℚ) (t : ℕ) (hp : 0 < p) (hr : 0 ≤ r)
    (ht : 1 ≤ t) :
    (calculateEMI p r t).totalPayable =
        (calculateEMI p r t).monthlyEmi * ((t * 12 : ℕ) : ℚ) ∧
    (calculateEMI p r t).totalPayable =
        (calculateEMI p r t).totalInterest +
          (calculateEMI p r t).principalAmount ∧
    (calculateEMI p r t).tenureMonths = t * 12 ∧
    (calculateEMI p r t).principalAmount = p := by
  refine ⟨rfl, ?_, rfl, rfl⟩
  show (calculateEMI p r t).totalPayable =
    ((calculateEMI p r t).totalPayable - p) + p
  ring

/-- Witness for C4 at the spec's concrete scenario 1 (50000, 7.5 %, 5 y). -/
theorem calculateEMI_totals_witness :
    (0 : ℚ) < 50000 ∧ (0 : ℚ) ≤ 15 / 2 ∧ (1 : ℕ) ≤ 5 ∧
    ((calculateEMI 50000 (15 / 2) 5).totalPayable =
        (calculateEMI 50000 (15 / 2) 5).monthlyEmi * ((5 * 12 : ℕ) : ℚ) ∧
      (calculateEMI 50000 (15 / 2) 5).totalPayable =
        (calculateEMI 50000 (15 / 2) 5).totalInterest +
          (calculateEMI 50000 (15 / 2) 5).principalAmount ∧
      (calculateEMI 50000 (15 / 2) 5).tenureMonths = 5 * 12 ∧
      (calculateEMI 50000 (15 / 2) 5).principalAmount = 50000) :=
  ⟨by norm_num, by norm_num, by norm_num,
    calculateEMI_totals 50000 (15 / 2) 5 (by norm_num) (by norm_num)
      (by norm_num)⟩

/-- The `monthlyEmi` field is the amortization formula, spelled out. -/
lemma calculateEMI_monthlyEmi (p r : ℚ) (t : ℕ) :
    (calculateEMI p r t).monthlyEmi =
      p * (r / 12 / 100) * (1 + r / 12 / 100) ^ (t * 12) /
        ((1 + r / 12 / 100) ^ (t * 12) - 1) := rfl

/-- C5: the schedule has exactly `tenureYears * 12` entries and, when the
payment fed to the generator is the summary's formula EMI (which requires a
positive rate — at rate 0 the formula is the degenerate case of C1), the
final entry's outstanding balance is exactly 0. -/
theorem generateSchedule_length_and_final_balance (p r : ℚ) (t : ℕ)
    (sy sm : ℕ) (hp : 0 < p) (hr : 0 < r) (ht : 1 ≤ t) :
    (generateSchedule p r t ((calculateEMI p r t).monthlyEmi) sy sm).length =
        t * 12 ∧
    Option.map ScheduleEntry.balance
        ((generateSchedule p r t ((calculateEMI p r t).monthlyEmi) sy sm).get?
          (t * 12 - 1)) = some 0 := by
  refine ⟨generateSchedule_length p r t _ sy sm, ?_⟩
  have hN : 1 ≤ t * 12 := by omega
  rw [generateSchedule_get? p r t _ sy sm (t * 12 - 1) (by omega)]
  have h1 : t * 12 - 1 + 1 = t * 12 := by omega
  simp only [Option.map_some']
  congr 1
  show balIter (r / 12 / 100) ((calculateEMI p r t).monthlyEmi) p
    (t * 12 - 1 + 1) = 0
  rw [h1, calculateEMI_monthlyEmi,
    balIter_final p (r / 12 / 100) (t * 12) (le_of_lt hp) (by positivity)
      (by omega)]

/-- Witness for C5 at principal 100, rate 12 %, tenure 1 year. -/
theorem generateSchedule_length_and_final_balance_witness :
    (0 : ℚ) < 100 ∧ (0 : ℚ) < 12 ∧ (1 : ℕ) ≤ 1 ∧
    ((generateSchedule 100 12 1 ((calculateEMI 100 12 1).monthlyEmi)
          2024 0).length = 1 * 12 ∧
      Option.map ScheduleEntry.balance
          ((generateSchedule 100 12 1 ((calculateEMI 100 12 1).monthlyEmi)
            2024 0).get? (1 * 12 - 1)) = some 0) :=
  ⟨by norm_num, by norm_num, le_rfl,
    generateSchedule_length_and_final_balance 100 12 1 2024 0 (by norm_num)
      (by norm_num) le_rfl⟩

/-- C6: summing the `interest` column of the schedule generated with the
summary's own EMI reproduces the summary's `totalInterest` — exactly, in
this embedding, hence a fortiori within the 1e-6 relative tolerance the
specification allows. Requires a positive rate: at rate 0 the summary is
the degenerate case of C1. -/
theorem schedule_interest_roundtrip (p r : ℚ) (t : ℕ) (sy sm : ℕ)
    (hp : 0 < p) (hr : 0 < r) (ht : 1 ≤ t) :
    ((generateSchedule p r t ((calculateEMI p r t).monthlyEmi) sy sm).map
        ScheduleEntry.interest).sum = (calculateEMI p r t).totalInterest := by
  have hmr : (0 : ℚ) < r / 12 / 100 := by positivity
  have hsum := scheduleAux_interest_sum (r / 12 / 100)
    ((calculateEMI p r t).monthlyEmi) sy sm (t * 12) p 1
  have hgen : generateSchedule p r t ((calculateEMI p r t).monthlyEmi) sy sm =
      scheduleAux (r / 12 / 100) ((calculateEMI p r t).monthlyEmi) sy sm
        (t * 12) p 1 := rfl
  rw [hgen, hsum, calculateEMI_monthlyEmi,
    interest_sum_closed p (r / 12 / 100) (t * 12) (le_of_lt hp) hmr
      (by omega) (t * 12) le_rfl,
    balIter_final p (r / 12 / 100) (t * 12) (le_of_lt hp) hmr (by omega)]
  have hti : (calculateEMI p r t).totalInterest =
      (calculateEMI p r t).monthlyEmi * ((t * 12 : ℕ) : ℚ) - p := rfl
  rw [hti, calculateEMI_monthlyEmi]
  ring

/-- Witness for C6 at principal 100, rate 12 %, tenure 1 year. -/
theorem schedule_interest_roundtrip_witness :
    (0 : ℚ) < 100 ∧ (0 : ℚ) < 12 ∧ (1 : ℕ) ≤ 1 ∧
    ((generateSchedule 100 12 1 ((calculateEMI 100 12 1).monthlyEmi)
          2024 0).map ScheduleEntry.interest).sum =
      (calculateEMI 100 12 1).totalInterest :=
  ⟨by norm_num, by norm_num, le_rfl,
    schedule_interest_roundtrip 100 12 1 2024 0 (by norm_num) (by norm_num)
      le_rfl⟩

/-- C6 counterexample: at the valid input principal 100000, rate 0,
tenure 10 (the spec admits rate 0 as valid), the round-trip fails as a
cascade of the C1 zero-rate fault: the schedule generated with the
summary's EMI has interest sum 0, while the summary's `totalInterest` is
`-100000`, far outside the 1e-6 relative tolerance. -/
theorem schedule_interest_roundtrip_zero_rate_counterexample :
    ((generateSchedule 100000 0 10 ((calculateEMI 100000 0 10).monthlyEmi)
        2024 0).map ScheduleEntry.interest).sum = 0 ∧
    (calculateEMI 100000 0 10).totalInterest = -100000 ∧
    ¬(|((generateSchedule 100000 0 10 ((calculateEMI 100000 0 10).monthlyEmi)
          2024 0).map ScheduleEntry.interest).sum -
        (calculateEMI 100000 0 10).totalInterest| ≤
      1 / 1000000 * |(calculateEMI 100000 0 10).totalInterest|) := by
  have hsum : ((generateSchedule 100000 0 10
      ((calculateEMI 100000 0 10).monthlyEmi) 2024 0).map
        ScheduleEntry.interest).sum = 0 := by
    have h := scheduleAux_interest_sum (0 / 12 / 100)
      ((calculateEMI 100000 0 10).monthlyEmi) 2024 0 (10 * 12) 100000 1
    rw [show generateSchedule 100000 0 10
        ((calculateEMI 100000 0 10).monthlyEmi) 2024 0 =
      scheduleAux (0 / 12 / 100) ((calculateEMI 100000 0 10).monthlyEmi)
        2024 0 (10 * 12) 100000 1 from rfl, h]
    norm_num
  have hti : (calculateEMI 100000 0 10).totalInterest = -100000 := by
    norm_num [calculateEMI]
  refine ⟨hsum, hti, ?_⟩
  rw [hsum, hti]
  norm_num

/-- C7 counterexample: with the valid loan (principal 100, rate 12 %,
tenure 1) but the fixed payment 1/2 — smaller than the first period's
interest 1 — the balance and interest columns strictly increase and the
principal column strictly decreases, refuting the claimed monotonicity for
arbitrary fixed payments. -/
theorem schedule_monotonicity_counterexample :
    Option.map ScheduleEntry.balance
        ((generateSchedule 100 12 1 (1 / 2) 2024 0).get? 0) =
      some (201 / 2) ∧
    Option.map ScheduleEntry.balance
        ((generateSchedule 100 12 1 (1 / 2) 2024 0).get? 1) =
      some (20201 / 200) ∧
    ¬((20201 : ℚ) / 200 ≤ 201 / 2) ∧
    Option.map ScheduleEntry.interest
        ((generateSchedule 100 12 1 (1 / 2) 2024 0).get? 0) = some 1 ∧
    Option.map ScheduleEntry.interest
        ((generateSchedule 100 12 1 (1 / 2) 2024 0).get? 1) =
      some (201 / 200) ∧
    ¬((201 : ℚ) / 200 ≤ 1) ∧
    Option.map ScheduleEntry.principal
        ((generateSchedule 100 12 1 (1 / 2) 2024 0).get? 0) =
      some (-(1 / 2)) ∧
    Option.map ScheduleEntry.principal
        ((generateSchedule 100 12 1 (1 / 2) 2024 0).get? 1) =
      some (-(101 / 200)) ∧
    ¬((-(1 / 2) : ℚ) ≤ -(101 / 200)) := by
  have hb1 : balIter (1 / 100) (1 / 2) 100 1 = 201 / 2 := by
    rw [balIter_succ, balIter_zero]
    norm_num [max_def]
  have hb2 : balIter (1 / 100) (1 / 2) 100 2 = 20201 / 200 := by
    rw [balIter_succ, hb1]
    norm_num [max_def]
  simp only [generateSchedule_get? 100 12 1 (1 / 2) 2024 0 0 (by norm_num),
    generateSchedule_get? 100 12 1 (1 / 2) 2024 0 1 (by norm_num),
    Option.map_some']
  norm_num [balIter_zero, hb1, hb2]

/-- C7 amended: the monotonicity holds when the fixed payment is the one the
engine itself computes (the formula EMI, with a positive rate): along the
schedule the balance is non-increasing, the interest portion is
non-increasing, and the principal portion is non-decreasing. -/
theorem schedule_monotone_with_formula_payment (p r : ℚ) (t : ℕ) (sy sm : ℕ)
    (hp : 0 < p) (hr : 0 < r) (ht : 1 ≤ t) :
    ∀ k e e2,
      (generateSchedule p r t ((calculateEMI p r t).monthlyEmi) sy sm).get? k =
          some e →
      (generateSchedule p r t ((calculateEMI p r t).monthlyEmi) sy
            sm).get? (k + 1) = some e2 →
      e2.balance ≤ e.balance ∧ e2.interest ≤ e.interest ∧
        e.principal ≤ e2.principal := by
  intro k e e2 he he2
  have hmr : (0 : ℚ) < r / 12 / 100 := by positivity
  have hk2 := generateSchedule_get?_isSome p r t _ sy sm (k + 1) e2 he2
  have hk : k < t * 12 := by omega
  rw [generateSchedule_get? p r t _ sy sm k hk, calculateEMI_monthlyEmi] at he
  rw [generateSchedule_get? p r t _ sy sm (k + 1) hk2,
    calculateEMI_monthlyEmi] at he2
  injection he with he
  injection he2 with he2
  subst he
  subst he2
  have hmono1 := balIter_mono p (r / 12 / 100) (t * 12) (le_of_lt hp) hmr
    (by omega) k (k + 1) (by omega) (by omega)
  have hmono2 := balIter_mono p (r / 12 / 100) (t * 12) (le_of_lt hp) hmr
    (by omega) (k + 1) (k + 1 + 1) (by omega) (by omega)
  refine ⟨hmono2, ?_, ?_⟩
  · exact mul_le_mul_of_nonneg_right hmono1 (le_of_lt hmr)
  · have := mul_le_mul_of_nonneg_right hmono1 (le_of_lt hmr)
    simp only [ScheduleEntry.principal]
    linarith

/-- Witness for the amended C7 on the first two entries of the schedule for
principal 100, rate 12 %, tenure 1 with the engine's own EMI. -/
theorem schedule_monotone_with_formula_payment_witness :
    (0 : ℚ) < 100 ∧ (0 : ℚ) < 12 ∧ (1 : ℕ) ≤ 1 ∧
    (∀ k e e2,
      (generateSchedule 100 12 1 ((calculateEMI 100 12 1).monthlyEmi)
          2024 0).get? k = some e →
      (generateSchedule 100 12 1 ((calculateEMI 100 12 1).monthlyEmi)
          2024 0).get? (k + 1) = some e2 →
      e2.balance ≤ e.balance ∧ e2.interest ≤ e.interest ∧
        e.principal ≤ e2.principal) :=
  ⟨by norm_num, by norm_num, le_rfl,
    schedule_monotone_with_formula_payment 100 12 1 2024 0 (by norm_num)
      (by norm_num) le_rfl⟩

/-- C8 counterexample: the source generator reads its start date from the
ambient system clock (`new Date()`), not from a caller-supplied parameter.
Two invocations with identical explicit inputs (principal 100, rate 0,
tenure 1, payment 0) but different clock readings produce different
schedules: the first entry carries year 2024 in one run and 2025 in the
other. -/
theorem generateSchedule_clock_dependence :
    Option.map ScheduleEntry.year
        ((generateSchedule 100 0 1 0 2024 0).get? 0) = some 2024 ∧
    Option.map ScheduleEntry.year
        ((generateSchedule 100 0 1 0 2025 0).get? 0) = some 2025 ∧
    generateSchedule 100 0 1 0 2024 0 ≠ generateSchedule 100 0 1 0 2025 0 := by
  have h24 : Option.map ScheduleEntry.year
      ((generateSchedule 100 0 1 0 2024 0).get? 0) = some 2024 := by
    rw [generateSchedule_get? 100 0 1 0 2024 0 0 (by norm_num)]
    simp
  have h25 : Option.map ScheduleEntry.year
      ((generateSchedule 100 0 1 0 2025 0).get? 0) = some 2025 := by
    rw [generateSchedule_get? 100 0 1 0 2025 0 0 (by norm_num)]
    simp
  refine ⟨h24, h25, fun hEq => ?_⟩
  rw [hEq, h25] at h24
  simp at h24

/-- C8 amended: the start date comes from the clock reading (modelled as the
explicit `startYear`/`startMonth` state), and each entry's calendar label
adds `i` months to it with standard 12-month rollover:
`month = (startMonth + i) % 12 + 1`, `year = startYear + (startMonth + i) / 12`
for the `i`-th payment. Given equal clock readings the pure function yields
equal schedules. -/
theorem generateSchedule_calendar_rollover (p r : ℚ) (t : ℕ) (payment : ℚ)
    (sy sm : ℕ) :
    ∀ k e, (generateSchedule p r t payment sy sm).get? k = some e →
      e.month = (sm + (k + 1)) % 12 + 1 ∧
      e.year = sy + (sm + (k + 1)) / 12 := by
  intro k e he
  have hk := generateSchedule_get?_isSome p r t payment sy sm k e he
  rw [generateSchedule_get? p r t payment sy sm k hk] at he
  injection he with he
  subst he
  exact ⟨rfl, rfl⟩

/-- Witness for the amended C8: with the clock at December 2024
(month index 11), the first entry rolls over to January 2025. -/
theorem generateSchedule_calendar_rollover_witness :
    ScheduleEntry.month ⟨1, 2025, 0, 0, 0, 100⟩ = (11 + (0 + 1)) % 12 + 1 ∧
    ScheduleEntry.year ⟨1, 2025, 0, 0, 0, 100⟩ = 2024 + (11 + (0 + 1)) / 12 :=
  generateSchedule_calendar_rollover 100 0 1 0 2024 11 0
    ⟨1, 2025, 0, 0, 0, 100⟩
    (by rw [generateSchedule_get? 100 0 1 0 2024 11 0 (by norm_num)]
        norm_num [balIter_succ, balIter_zero, max_def])

/-- C9: every emitted entry's `emi` field is exactly the caller-supplied
payment — the generator never recomputes the EMI from principal, rate and
tenure (the statement holds for an arbitrary payment argument, unrelated to
`calculateEMI`). -/
theorem generateSchedule_payment_passthrough (p r : ℚ) (t : ℕ) (payment : ℚ)
    (sy sm : ℕ) :
    ∀ k e, (generateSchedule p r t payment sy sm).get? k = some e →
      ScheduleEntry.emi e = payment := by
  intro k e he
  have hk := generateSchedule_get?_isSome p r t payment sy sm k e he
  rw [generateSchedule_get? p r t payment sy sm k hk] at he
  injection he with he
  subst he
  rfl

/-- Witness for C9 with the arbitrary payment 7 (not the formula EMI). -/
theorem generateSchedule_payment_passthrough_witness :
    ScheduleEntry.emi ⟨2, 2024, 7, 7, 0, 93⟩ = 7 :=
  generateSchedule_payment_passthrough 100 0 1 7 2024 0 0
    ⟨2, 2024, 7, 7, 0, 93⟩
    (by rw [generateSchedule_get? 100 0 1 7 2024 0 0 (by norm_num)]
        norm_num [balIter_succ, balIter_zero, max_def])

/-- C10: every emitted entry's balance is nonnegative, for every payment
value — the clamp `max 0 _` is applied unconditionally in every period, so
even a payment below the period's interest (negative principal portion)
cannot drive the balance below zero. -/
theorem generateSchedule_balance_nonneg (p r : ℚ) (t : ℕ) (payment : ℚ)
    (sy sm : ℕ) :
    ∀ k e, (generateSchedule p r t payment sy sm).get? k = some e →
      0 ≤ ScheduleEntry.balance e := by
  intro k e he
  have hk := generateSchedule_get?_isSome p r t payment sy sm k e he
  rw [generateSchedule_get? p r t payment sy sm k hk] at he
  injection he with he
  subst he
  show (0 : ℚ) ≤ balIter (r / 12 / 100) payment p (k + 1)
  rw [balIter_succ]
  exact le_max_left 0 _

/-- Witness for C10 at a payment (1/2) below the first period's interest
(1): the principal portion is negative, yet the balance stays ≥ 0. -/
theorem generateSchedule_balance_nonneg_witness :
    ScheduleEntry.principal ⟨2, 2024, 1 / 2, -(1 / 2), 1, 201 / 2⟩ < 0 ∧
    0 ≤ ScheduleEntry.balance ⟨2, 2024, 1 / 2, -(1 / 2), 1, 201 / 2⟩ :=
  ⟨by norm_num,
    generateSchedule_balance_nonneg 100 12 1 (1 / 2) 2024 0 0
      ⟨2, 2024, 1 / 2, -(1 / 2), 1, 201 / 2⟩
      (by rw [generateSchedule_get? 100 12 1 (1 / 2) 2024 0 0 (by norm_num)]
          norm_num [balIter_succ, balIter_zero, max_def])⟩
